import Mathlib

/-!
Verification of the Order-manager repository's order-status / courier-booking
workflow against its specification.

The development shallowly embeds the client code:

* `src/types.ts` / `src/types.js` — the `OrderStatus` and `Courier`
  enumerations and the `Order` / `OrderItem` / `CustomerHistory` records.
* `src/services/orderService.ts` — both concatenated revisions: the custom
  plugin endpoint variant (`updateOrderStatusV1`) and the standard
  WooCommerce REST variant (`mapWooCommerceOrder`, `fetchOrdersWC`,
  `updateOrderStatusWC`), plus the courier gateway (`sendToCourier`,
  `sendToSteadfast`, `sendToPathao`).
* `src/App.js` — the lifecycle controller handlers (`loadOrders`,
  `handleUpdateStatus`, `handleOrderBooked`).
* `src/components/OrderDetailModal.tsx` — the booking flow
  (`handleSendToCourier`, `isBooked`, `isBookingConfigMissing`).

Network effects are embedded by passing the remote response explicitly as an
environment record; every function also reports the network requests it
issued, so "no network call is made" is a provable statement.  JavaScript
exceptions become `Except`, JavaScript string falsiness (`x || y`) becomes
`jsOr`, and `undefined`/`null` fields become `Option`.
-/

namespace OrderManager

/-- JavaScript `a || b` on strings: the empty string is falsy. -/
def jsOr (a b : String) : String := if a = "" then b else a

/-- JavaScript truthiness of a possibly-absent string (`!!x` / `!x` guards):
`undefined`, `null` and `""` are falsy. -/
def truthy : Option String → Bool
  | none => false
  | some s => !(s == "")

/-- Whether the first list begins with the second (kernel-reducible working
horse for the string predicates below). -/
def listStartsWith : List Char → List Char → Bool
  | _, [] => true
  | [], _ :: _ => false
  | c :: s, p :: ps => c == p && listStartsWith s ps

/-- Whether `pat` occurs as a contiguous run of the second list. -/
def containsSub (pat : List Char) : List Char → Bool
  | [] => listStartsWith [] pat
  | c :: t => listStartsWith (c :: t) pat || containsSub pat t

/-- JavaScript `s.startsWith(p)`. -/
def strStartsWith (s p : String) : Bool := listStartsWith s.data p.data

/-- JavaScript `s.includes(pat)`. -/
def strContains (s pat : String) : Bool := containsSub pat.data s.data

/-- ASCII lower-casing of one character (JavaScript `toLowerCase` restricted
to the ASCII range the compared literals live in). -/
def charToLower (c : Char) : Char :=
  if 65 ≤ c.toNat ∧ c.toNat ≤ 90 then Char.ofNat (c.toNat + 32) else c

/-- JavaScript `s.toLowerCase()`. -/
def strToLower (s : String) : String := String.mk (s.data.map charToLower)

/-- The whitespace characters JavaScript `trim` removes (the ones that can
occur in the modelled fields). -/
def isJsSpace (c : Char) : Bool := c == ' ' || c == '\t' || c == '\n' || c == '\r'

/-- JavaScript `s.trim()`. -/
def strTrim (s : String) : String :=
  String.mk (((s.data.dropWhile isJsSpace).reverse.dropWhile isJsSpace).reverse)

/-- JavaScript `parts.join(sep)`. -/
def joinWith (sep : String) (parts : List String) : String :=
  String.mk (List.intercalate sep.data (parts.map String.data))

/-- Embedding of `siteUrl.replace(/\/+$/, "")`: drop every trailing slash. -/
def stripTrailingSlashes (s : String) : String :=
  String.mk ((s.data.reverse.dropWhile (fun c => c = '/')).reverse)

/-- Embedding of `contentType && contentType.includes('application/json')` where the
header is absent (`null`) or a string. -/
def ctIncludesJson : Option String → Bool
  | none => false
  | some ct => strContains ct "application/json"

/-! ## Data model (src/types.ts, src/types.js) -/

/-- The closed local status enumeration.  At runtime the members are the
strings "Pending", "Processing", "Shipped", "Delivered", "Cancelled". -/
inductive OrderStatus where
  | Pending
  | Processing
  | Shipped
  | Delivered
  | Cancelled
deriving DecidableEq, Repr

/-- The two supported couriers. -/
inductive Courier where
  | Steadfast
  | Pathao
deriving DecidableEq, Repr

/-- A line item of an order.  Monetary amounts stay as their decimal source
strings (no claim does arithmetic on them; `parseFloat` on an already
canonical decimal string is modelled as the identity). -/
structure OrderItem where
  id : String
  name : String
  quantity : Nat
  price : String
  imageUrl : String
deriving DecidableEq, Repr

/-- The local `Order` record.  `courier` and `trackingId` are the optional
booking fields, absent until a successful booking. -/
structure Order where
  id : String
  customerName : String
  customerEmail : String
  customerPhone : String
  orderDate : String
  status : OrderStatus
  items : List OrderItem
  total : String
  shippingAddress : String
  courier : Option Courier := none
  trackingId : Option String := none
deriving DecidableEq, Repr

/-! ## WooCommerce order mapping (src/services/orderService.ts, WC-API revision) -/

/-- A billing/shipping contact block of a raw WooCommerce order; absent JSON
fields are the empty string (they are only ever read through `|| ''`). -/
structure WCContact where
  first_name : String := ""
  last_name : String := ""
  company : String := ""
  address_1 : String := ""
  address_2 : String := ""
  city : String := ""
  state : String := ""
  postcode : String := ""
  country : String := ""
  email : String := ""
  phone : String := ""
deriving DecidableEq, Repr

/-- A raw WooCommerce line item (`item.id` is a number, hence `Nat`). -/
structure WCLineItem where
  id : Nat
  name : String
  quantity : Nat
  price : String := ""
  subtotal : String := ""
  image : Option String := none
deriving DecidableEq, Repr

/-- A raw WooCommerce order as returned by `GET /wp-json/wc/v3/orders`. -/
structure WCOrder where
  id : Nat
  status : String
  billing : WCContact := {}
  shipping : WCContact := {}
  billing_email : String := ""
  billing_phone : String := ""
  date_created : String := ""
  total : String := ""
  line_items : List WCLineItem := []
deriving DecidableEq, Repr

/-- The fixed remote-to-local status mapping table inside
`mapWooCommerceOrder`. -/
def wcStatusMap (s : String) : Option OrderStatus :=
  if s == "pending" then some OrderStatus.Pending
  else if s == "processing" then some OrderStatus.Processing
  else if s == "on-hold" then some OrderStatus.Pending
  else if s == "completed" then some OrderStatus.Delivered
  else if s == "cancelled" then some OrderStatus.Cancelled
  else if s == "refunded" then some OrderStatus.Cancelled
  else if s == "failed" then some OrderStatus.Cancelled
  else none

/-- The placeholder product image used when a line item carries none. -/
def placeholderImageUrl : String := "https://placehold.co/100x100?text=Product"

/-- The helper `mapWooCommerceOrder`: translate a raw WooCommerce order into the local
`Order` shape.  `statusMap[wcOrder.status] || OrderStatus.Pending` becomes
`Option.getD`; the address is the filtered, newline-joined part list. -/
def mapWooCommerceOrder (wc : WCOrder) : Order :=
  let items : List OrderItem := wc.line_items.map (fun item =>
    { id := toString item.id
      name := item.name
      quantity := item.quantity
      price := jsOr item.price item.subtotal
      imageUrl := jsOr (item.image.getD "") placeholderImageUrl })
  let billing := wc.billing
  let shipping := wc.shipping
  let addressParts : List String :=
    [ jsOr shipping.first_name billing.first_name ++ " " ++
        jsOr shipping.last_name billing.last_name,
      shipping.company,
      shipping.address_1,
      shipping.address_2,
      shipping.city ++ ", " ++ shipping.state ++ " " ++ shipping.postcode,
      shipping.country ].filter (fun part => part != "" && strTrim part != "")
  { id := toString wc.id
    customerName := jsOr (strTrim (billing.first_name ++ " " ++ billing.last_name)) "Guest"
    customerEmail := jsOr billing.email wc.billing_email
    customerPhone := jsOr billing.phone wc.billing_phone
    orderDate := wc.date_created
    status := (wcStatusMap wc.status).getD OrderStatus.Pending
    items := items
    total := wc.total
    shippingAddress := jsOr (joinWith "\n" addressParts) "No address provided" }

/-! ## fetchOrders, WC-API revision (src/services/orderService.ts lines 329-386) -/

/-- A parsed JSON response body: its `message` field (empty when absent) and,
when the value is an array of order records, that array. -/
structure JsonBody where
  message : String := ""
  orders : Option (List WCOrder) := none
deriving DecidableEq, Repr

/-- The remote side of one `fetchOrders` call: whether the app runs on HTTPS,
the configured site URL, and the HTTP response (or the rejection of `fetch`
itself).  `bodyJson = none` means the body is not valid JSON. -/
structure FetchEnv where
  httpsApp : Bool
  siteUrl : String
  fetchError : Option String := none
  contentType : Option String := none
  ok : Bool := false
  status : Nat := 0
  bodyText : String := ""
  bodyJson : Option JsonBody := none
deriving Repr

/-- The mixed-content error text thrown by `checkMixedContent`. -/
def mixedContentMsg : String :=
  "Security Error: Mixed Content.\n\nThis app is running on HTTPS (Secure), but your site is HTTP (Insecure).\nBrowsers block this connection for your safety.\n\nSolution: You must enable SSL (HTTPS) on your WordPress site to use it with this app."

/-- The helper `checkMixedContent`: an HTTPS app calling an `http:` site throws. -/
def checkMixedContent (httpsApp : Bool) (siteUrl : String) : Option String :=
  if httpsApp && strStartsWith siteUrl "http:" then some mixedContentMsg else none

/-- CORS / network-failure diagnostic of the WC-API `fetchOrders`. -/
def corsBlockedMsg : String :=
  "Connection Blocked (CORS).\n\nSince you are not using the helper plugin, your WordPress server is blocking this external request.\n\nSolution: Install a \"WP CORS\" plugin on your WordPress site to allow connections from this app."

/-- Diagnostic for an HTML (non-JSON) response body. -/
def htmlResponseMsg (status : Nat) : String :=
  "Connection Error: The site returned HTML instead of JSON data. (Status: " ++
    toString status ++ ").\nCheck if your Permalink settings are saved, or if a security plugin is blocking the API."

/-- Diagnostic for a non-JSON response that is not recognizably HTML. -/
def invalidResponseMsg (status : Nat) : String :=
  "Invalid response received from server (Status: " ++ toString status ++ ")."

/-- Diagnostic for HTTP 401/403. -/
def authFailedMsg (status : Nat) : String :=
  "Authorization failed (" ++ toString status ++ "). Please check your Username and Application Password."

/-- Diagnostic for HTTP 404. -/
def endpointNotFoundMsg : String :=
  "API Endpoint Not Found (404). Make sure WooCommerce is installed and Permalinks are set to 'Post name'."

/-- Fallback generic server diagnostic with the raw HTTP status. -/
def serverStatusMsg (status : Nat) : String :=
  "Server returned status: " ++ toString status

/-- The `SyntaxError` with which `response.json()` rejects on a body that is
not valid JSON (propagated uncaught on the success path). -/
def jsonParseFailedMsg : String := "SyntaxError: Unexpected token in JSON response"

/-- The `TypeError` raised by `data.map(...)` when the parsed body is not an
array. -/
def mapNotAFunctionMsg : String := "TypeError: data.map is not a function"

/-- The WC-API `fetchOrders`: mixed-content guard, `fetch` with CORS
rewording, content-type sniffing with the HTML hint, 401/403 and 404
classification, message passthrough for other non-OK statuses, and the
mapped order list on success. -/
def fetchOrdersWC (env : FetchEnv) : Except String (List Order) :=
  let baseUrl := stripTrailingSlashes env.siteUrl
  match checkMixedContent env.httpsApp baseUrl with
  | some m => .error m
  | none =>
    match env.fetchError with
    | some m =>
      if m == "Failed to fetch" || strContains (strToLower m) "network" then
        .error corsBlockedMsg
      else
        .error m
    | none =>
      if !ctIncludesJson env.contentType then
        if strContains env.bodyText "<!DOCTYPE html>" then
          .error (htmlResponseMsg env.status)
        else
          .error (invalidResponseMsg env.status)
      else if !env.ok then
        if env.status == 401 || env.status == 403 then
          .error (authFailedMsg env.status)
        else if env.status == 404 then
          .error endpointNotFoundMsg
        else
          -- `errorData.message || errorMessage`; the inner catch swallows a
          -- parse failure and keeps the generic message.
          match env.bodyJson with
          | some b => .error (jsOr b.message (serverStatusMsg env.status))
          | none => .error (serverStatusMsg env.status)
      else
        match env.bodyJson with
        | none => .error jsonParseFailedMsg
        | some b =>
          match b.orders with
          | some data => .ok (data.map mapWooCommerceOrder)
          | none => .error mapNotAFunctionMsg

/-! ## updateOrderStatus, both revisions -/

/-- The local-to-remote status mapping (`statusMap` in both revisions of
`updateOrderStatus`).  At runtime the keys are the status strings, and an
argument outside the enumeration (the UI casts raw `select` values) misses
the table. -/
def statusMapLocalToWc (status : String) : Option String :=
  if status == "Pending" then some "pending"
  else if status == "Processing" then some "processing"
  -- WooCommerce has no "Shipped" status; the source maps it to "completed".
  else if status == "Shipped" then some "completed"
  else if status == "Delivered" then some "completed"
  else if status == "Cancelled" then some "cancelled"
  else none

/-- One status-update request as put on the wire: the target order and the
`status` field of the JSON body.  `statusField = none` embeds
`JSON.stringify({ status: undefined })`, which serializes to a body with the
`status` key omitted. -/
structure UpdateRequest where
  orderId : String
  statusField : Option String
deriving DecidableEq, Repr

/-- The remote side of one `updateOrderStatus` call. -/
structure UpdateEnv where
  httpsApp : Bool := false
  siteUrl : String := ""
  fetchError : Option String := none
  ok : Bool := true
  status : Nat := 200
  jsonParses : Bool := true
  message : String := ""
  -- Success body of the custom-endpoint revision (already order-shaped).
  bodyOrder : Order
  -- Success body of the WC-API revision (a raw WooCommerce order).
  bodyWc : WCOrder := { id := 0, status := "" }
deriving Repr

/-- The result of an update call together with the network requests issued
before it finished, in order. -/
structure UpdateOutcome where
  requests : List UpdateRequest
  result : Except String Order
deriving Repr

/-- The fail-fast error of the custom-endpoint revision. -/
def unknownStatusMsg (status : String) : String :=
  "Unknown status mapping for: " ++ status

/-- The function `updateOrderStatus`, custom plugin endpoint revision
(src/services/orderService.ts lines 16-53): maps the status, fails fast when
the table misses, otherwise POSTs the mapped value.  On a non-OK response
the `throw` inside the `try` is caught by its own `catch`, so the generic
invalid-response message always wins. -/
def updateOrderStatusV1 (orderId status : String) (env : UpdateEnv) : UpdateOutcome :=
  match statusMapLocalToWc status with
  | none => { requests := [], result := .error (unknownStatusMsg status) }
  | some wcStatus =>
    let req : UpdateRequest := { orderId := orderId, statusField := some wcStatus }
    match env.fetchError with
    | some m => { requests := [req], result := .error m }
    | none =>
      if !env.ok then
        { requests := [req]
          result := .error "Failed to update order status. The server returned an invalid response." }
      else if !env.jsonParses then
        { requests := [req], result := .error jsonParseFailedMsg }
      else
        { requests := [req], result := .ok env.bodyOrder }

/-- The function `updateOrderStatus`, WC-API revision (src/services/orderService.ts lines
389-428): mixed-content guard, then the same status table but WITHOUT the
fail-fast check — an unmapped status still issues the PUT, with the `status`
field omitted from the body.  The non-OK branch has the same
catch-swallows-its-own-throw shape as v1, so the generic message always
wins; the outer catch rethrows errors unchanged. -/
def updateOrderStatusWC (orderId status : String) (env : UpdateEnv) : UpdateOutcome :=
  match checkMixedContent env.httpsApp env.siteUrl with
  | some m => { requests := [], result := .error m }
  | none =>
    let wcStatus := statusMapLocalToWc status
    let req : UpdateRequest := { orderId := orderId, statusField := wcStatus }
    match env.fetchError with
    | some m => { requests := [req], result := .error m }
    | none =>
      if !env.ok then
        { requests := [req]
          result := .error ("Failed to update order status. Server returned: " ++ toString env.status) }
      else if !env.jsonParses then
        { requests := [req], result := .error jsonParseFailedMsg }
      else
        { requests := [req], result := .ok (mapWooCommerceOrder env.bodyWc) }

/-! ## Courier gateway (src/services/orderService.ts lines 119-272) -/

/-- The tagged result every courier operation resolves to. -/
structure CourierResult where
  success : Bool
  trackingId : String
  message : String
deriving DecidableEq, Repr

/-- A JavaScript exception: whether it is a `SyntaxError` (from
`response.json()`) and its `message`. -/
structure JsErr where
  isSyntaxError : Bool
  message : String
deriving DecidableEq, Repr

/-- The remote side of one courier booking call.  `trackingCode` is
`result?.consignment?.tracking_code` (Steadfast) or
`result?.data?.consignment_id` (Pathao); `errorsJson` is the stringified
`result.errors` object Pathao reports on failure. -/
structure CourierEnv where
  fetchError : Option String := none
  contentType : Option String := none
  ok : Bool := false
  status : Nat := 0
  jsonParses : Bool := true
  message : String := ""
  errorsJson : Option String := none
  trackingCode : Option String := none
deriving Repr

/-- Per-courier credential material (`config`), fields absent when not set. -/
structure CourierConfig where
  apiKey : Option String := none
  secretKey : Option String := none
  storeId : Option String := none
deriving DecidableEq, Repr

/-- The `try` block of `sendToSteadfast`: everything up to (not including)
its `catch`.  An `.error` is a thrown JavaScript exception. -/
def steadfastAttempt (order : Order) (env : CourierEnv) : Except JsErr CourierResult :=
  match env.fetchError with
  | some m => .error { isSyntaxError := false, message := m }
  | none =>
    if ctIncludesJson env.contentType then
      if !env.jsonParses then
        -- `await response.json()` rejects with a SyntaxError.
        .error { isSyntaxError := true, message := jsonParseFailedMsg }
      else if !env.ok then
        .error { isSyntaxError := false
                 message := jsOr env.message
                   ("Steadfast API returned status " ++ toString env.status) }
      else
        let trackingId := jsOr (env.trackingCode.getD "") ("STDFST-" ++ order.id)
        .ok { success := true
              trackingId := trackingId
              message := "Successfully booked with Steadfast. Tracking: " ++ trackingId }
    else
      .error { isSyntaxError := false
               message := "Received an invalid response from Steadfast (status: " ++
                 toString env.status ++ "). Please check API keys and service status." }

/-- The function `sendToSteadfast` with its `catch`: a `SyntaxError` becomes the
parse-failure result, any other error becomes a failure result carrying the
error's message.  The `Except` return type records that nothing escapes. -/
def sendToSteadfast (order : Order) (env : CourierEnv) : Except JsErr CourierResult :=
  match steadfastAttempt order env with
  | .ok r => .ok r
  | .error e =>
    if e.isSyntaxError then
      .ok { success := false, trackingId := ""
            message := "Failed to parse response from Steadfast. The API may be down." }
    else
      .ok { success := false, trackingId := "", message := e.message }

/-- The `try` block of `sendToPathao`. -/
def pathaoAttempt (order : Order) (env : CourierEnv) : Except JsErr CourierResult :=
  match env.fetchError with
  | some m => .error { isSyntaxError := false, message := m }
  | none =>
    if ctIncludesJson env.contentType then
      if !env.jsonParses then
        .error { isSyntaxError := true, message := jsonParseFailedMsg }
      else if !env.ok then
        -- `result.errors ? JSON.stringify(result.errors) : (result.message || default)`
        .error { isSyntaxError := false
                 message :=
                   match env.errorsJson with
                   | some es => es
                   | none => jsOr env.message
                       ("Pathao API returned status " ++ toString env.status) }
      else
        let trackingId := jsOr (env.trackingCode.getD "") ("PTHO-" ++ order.id)
        .ok { success := true
              trackingId := trackingId
              message := "Successfully booked with Pathao. Tracking: " ++ trackingId }
    else
      .error { isSyntaxError := false
               message := "Received an invalid response from Pathao (status: " ++
                 toString env.status ++ "). Please check API keys and service status." }

/-- The function `sendToPathao` with its `catch`. -/
def sendToPathao (order : Order) (env : CourierEnv) : Except JsErr CourierResult :=
  match pathaoAttempt order env with
  | .ok r => .ok r
  | .error e =>
    if e.isSyntaxError then
      .ok { success := false, trackingId := ""
            message := "Failed to parse response from Pathao. The API may be down." }
    else
      .ok { success := false, trackingId := "", message := e.message }

/-- The result of `sendToCourier` together with how many network requests the
call issued (the credential guards return before any `fetch`). -/
structure CourierOutcome where
  netCalls : Nat
  result : Except JsErr CourierResult
deriving Repr

/-- The function `sendToCourier` (src/services/orderService.ts lines 246-272): credential
gating per courier, then dispatch.  The trailing "not configured" branch of
the source is unreachable over the closed `Courier` enumeration. -/
def sendToCourier (order : Order) (courier : Courier) (config : CourierConfig)
    (env : CourierEnv) : CourierOutcome :=
  match courier with
  | Courier.Steadfast =>
    if !truthy config.apiKey || !truthy config.secretKey then
      { netCalls := 0
        result := .ok { success := false, trackingId := ""
                        message := "Steadfast API Key and Secret Key are required." } }
    else
      { netCalls := 1, result := sendToSteadfast order env }
  | Courier.Pathao =>
    if !truthy config.apiKey || !truthy config.storeId then
      { netCalls := 0
        result := .ok { success := false, trackingId := ""
                        message := "Pathao Access Token and Store ID are required." } }
    else
      { netCalls := 1, result := sendToPathao order env }

/-! ## Lifecycle controller (src/App.js) -/

/-- The controller state the claims observe: the order list, the selected
order, the current error banner, and the log of every error message ever
surfaced through `setError(msg)` (so transiently-shown errors remain
observable in the sequential model). -/
structure AppState where
  orders : List Order := []
  selectedOrder : Option Order := none
  isLoading : Bool := false
  error : Option String := none
  errorLog : List String := []
deriving Repr

/-- The error banner `handleUpdateStatus` surfaces on a failed remote
update. -/
def updateFailedMsg : String := "Failed to update order status."

/-- The handler `loadOrders` (src/App.js lines 25-42): guarded by connection state and
credentials; clears the error, replaces the order list on success, surfaces
the fetch error message on failure.  `fetchResult` is the outcome of the
`fetchOrders` call it issues. -/
def loadOrders (connected : Bool) (siteUrl apiKey : Option String)
    (s : AppState) (fetchResult : Except String (List Order)) : AppState :=
  if !connected || !truthy siteUrl || !truthy apiKey then s
  else
    match fetchResult with
    | .ok fetchedOrders =>
      { s with isLoading := false, error := none, orders := fetchedOrders }
    | .error m =>
      { s with isLoading := false, error := some m, errorLog := s.errorLog ++ [m] }

/-- The handler `handleUpdateStatus` (src/App.js lines 85-102): credential guard, then
the optimistic status write to the order list and the selected order, then
the remote call; on failure it surfaces `updateFailedMsg` and reissues a
full fetch (`loadOrders`).  `updateResult` and `refetchResult` are the
outcomes of the remote calls it issues. -/
def handleUpdateStatus (connected : Bool) (siteUrl apiKey : Option String)
    (s : AppState) (orderId : String) (status : OrderStatus)
    (updateResult : Except String Order)
    (refetchResult : Except String (List Order)) : AppState :=
  if !truthy siteUrl || !truthy apiKey then s
  else
    let s1 : AppState :=
      { s with
        orders := s.orders.map (fun o =>
          if o.id == orderId then { o with status := status } else o)
        selectedOrder := s.selectedOrder.map (fun sel =>
          if sel.id == orderId then { sel with status := status } else sel) }
    match updateResult with
    | .ok _ => s1
    | .error _ =>
      let s2 : AppState :=
        { s1 with error := some updateFailedMsg, errorLog := s1.errorLog ++ [updateFailedMsg] }
      loadOrders connected siteUrl apiKey s2 refetchResult

/-- The handler `handleOrderBooked` (src/App.js lines 104-113): record the courier and
tracking id on the matching order (and the selected order). -/
def handleOrderBooked (s : AppState) (orderId : String) (courier : Courier)
    (trackingId : String) : AppState :=
  { s with
    orders := s.orders.map (fun o =>
      if o.id == orderId then { o with courier := some courier, trackingId := some trackingId } else o)
    selectedOrder := s.selectedOrder.map (fun sel =>
      if sel.id == orderId then { sel with courier := some courier, trackingId := some trackingId } else sel) }

/-! ## Order detail modal (src/components/OrderDetailModal.tsx) -/

/-- The per-courier key material the modal loads from local storage. -/
structure ModalCtx where
  steadfastApiKey : Option String := none
  steadfastSecretKey : Option String := none
  pathaoApiKey : Option String := none
  pathaoStoreId : Option String := none
deriving Repr

/-- The `courierConfig` object `handleSendToCourier` assembles for the
selected courier. -/
def modalCourierConfig (m : ModalCtx) : Courier → CourierConfig
  | Courier.Steadfast => { apiKey := m.steadfastApiKey, secretKey := m.steadfastSecretKey }
  | Courier.Pathao => { apiKey := m.pathaoApiKey, storeId := m.pathaoStoreId }

/-- The flag `isBooked` (src/components/OrderDetailModal.tsx line 128):
`!!order.courier`. -/
def isBooked (order : Order) : Bool := order.courier.isSome

/-- The flag `isBookingConfigMissing`: which credentials gate the Send button for the
selected courier. -/
def isBookingConfigMissing (m : ModalCtx) : Courier → Bool
  | Courier.Steadfast => !truthy m.steadfastApiKey || !truthy m.steadfastSecretKey
  | Courier.Pathao => !truthy m.pathaoApiKey || !truthy m.pathaoStoreId

/-- The modal's transient booking-request state (`courierStatus`). -/
inductive CourierUiStatus where
  | idle
  | sending
  | sent
  | error
deriving DecidableEq, Repr

/-- Whether the Send button can fire: the source renders the booked panel
instead of the send controls when `isBooked`, and additionally disables the
button while sending, when booked, or when credentials are missing. -/
def sendButtonEnabled (order : Order) (m : ModalCtx) (c : Courier)
    (courierStatus : CourierUiStatus) : Bool :=
  !(courierStatus == CourierUiStatus.sending) && !isBooked order &&
    !isBookingConfigMissing m c

/-- The handler `handleSendToCourier` (src/components/OrderDetailModal.tsx lines 98-126)
composed with the App handlers it calls back into: on a successful booking
it records courier and tracking id via `onOrderBooked` and, if the order was
still Pending, issues `onUpdateStatus(order.id, Processing)` itself; on a
failure result or a thrown error the app state is untouched (only the
modal-local message state changes). -/
def handleSendToCourierFlow (connected : Bool) (siteUrl apiKey : Option String)
    (app : AppState) (m : ModalCtx) (order : Order) (selectedCourier : Courier)
    (env : CourierEnv) (updateResult : Except String Order)
    (refetchResult : Except String (List Order)) : AppState :=
  let outcome := sendToCourier order selectedCourier (modalCourierConfig m selectedCourier) env
  match outcome.result with
  | .ok result =>
    if result.success then
      let app1 := handleOrderBooked app order.id selectedCourier result.trackingId
      if order.status == OrderStatus.Pending then
        handleUpdateStatus connected siteUrl apiKey app1 order.id OrderStatus.Processing
          updateResult refetchResult
      else app1
    else app
  | .error _ => app

/-! ## Helper lemmas -/

/-- The status field of a mapped order is the table lookup with the Pending
default. -/
theorem mapWooCommerceOrder_status (wc : WCOrder) :
    (mapWooCommerceOrder wc).status = (wcStatusMap wc.status).getD OrderStatus.Pending := rfl

/-- On the success path (no mixed content, fetch resolves, JSON content type,
HTTP OK, body parses to an order array) the WC-API `fetchOrders` returns the
mapped order list. -/
theorem fetchOrdersWC_ok (env : FetchEnv) (b : JsonBody) (data : List WCOrder)
    (hmix : checkMixedContent env.httpsApp (stripTrailingSlashes env.siteUrl) = none)
    (hferr : env.fetchError = none)
    (hct : ctIncludesJson env.contentType = true)
    (hok : env.ok = true)
    (hbody : env.bodyJson = some b)
    (hords : b.orders = some data) :
    fetchOrdersWC env = .ok (data.map mapWooCommerceOrder) := by
  simp only [fetchOrdersWC, hmix, hferr, hct, hok, hbody, hords, Bool.not_true,
    Bool.false_eq_true, if_false]

/-! ## Claim theorems -/

/-- Claim C3: for every fetched remote order whose status string is a key of
the fixed mapping table, `fetchOrders` produces the corresponding local
enumerated status: pending→Pending, processing→Processing, on-hold→Pending,
completed→Delivered, cancelled→Cancelled, refunded→Cancelled,
failed→Cancelled; on the success path the fetched list is exactly the
per-order mapping of the remote list. -/
theorem fetchOrders_maps_known_statuses
    (env : FetchEnv) (b : JsonBody) (data : List WCOrder)
    (hmix : checkMixedContent env.httpsApp (stripTrailingSlashes env.siteUrl) = none)
    (hferr : env.fetchError = none)
    (hct : ctIncludesJson env.contentType = true)
    (hok : env.ok = true)
    (hbody : env.bodyJson = some b)
    (hords : b.orders = some data) :
    fetchOrdersWC env = .ok (data.map mapWooCommerceOrder) ∧
    ∀ wc : WCOrder,
      (wc.status = "pending" → (mapWooCommerceOrder wc).status = OrderStatus.Pending) ∧
      (wc.status = "processing" → (mapWooCommerceOrder wc).status = OrderStatus.Processing) ∧
      (wc.status = "on-hold" → (mapWooCommerceOrder wc).status = OrderStatus.Pending) ∧
      (wc.status = "completed" → (mapWooCommerceOrder wc).status = OrderStatus.Delivered) ∧
      (wc.status = "cancelled" → (mapWooCommerceOrder wc).status = OrderStatus.Cancelled) ∧
      (wc.status = "refunded" → (mapWooCommerceOrder wc).status = OrderStatus.Cancelled) ∧
      (wc.status = "failed" → (mapWooCommerceOrder wc).status = OrderStatus.Cancelled) := by
  refine ⟨fetchOrdersWC_ok env b data hmix hferr hct hok hbody hords, fun wc => ?_⟩
  refine ⟨fun h => ?_, fun h => ?_, fun h => ?_, fun h => ?_, fun h => ?_, fun h => ?_, fun h => ?_⟩
  all_goals rw [mapWooCommerceOrder_status, h]
  all_goals decide

/-- Sample contact block used by the concrete witnesses. -/
def wcSampleContact : WCContact :=
  { first_name := "Jane", last_name := "Doe", address_1 := "12 Lake Road",
    city := "Dhaka", postcode := "1207", country := "BD",
    email := "jane@example.com", phone := "01712345678" }

/-- Sample raw WooCommerce order with the remote status "on-hold". -/
def wcSampleOrder : WCOrder :=
  { id := 101, status := "on-hold", billing := wcSampleContact,
    shipping := wcSampleContact, date_created := "2023-10-26T10:00:00",
    total := "115.98",
    line_items := [{ id := 5, name := "Wireless Mouse", quantity := 1, price := "25.99" }] }

/-- Sample fetch environment on the success path carrying `wcSampleOrder`. -/
def fetchEnvOk : FetchEnv :=
  { httpsApp := true, siteUrl := "https://shop.example.com/",
    contentType := some "application/json", ok := true, status := 200,
    bodyJson := some { orders := some [wcSampleOrder] } }

/-- Witness for C3 at a concrete environment: the fetch succeeds and the
"on-hold" sample order comes back Pending. -/
theorem fetchOrders_maps_known_statuses_witness :
    fetchOrdersWC fetchEnvOk = .ok ([wcSampleOrder].map mapWooCommerceOrder) ∧
    (mapWooCommerceOrder wcSampleOrder).status = OrderStatus.Pending :=
  ⟨(fetchOrders_maps_known_statuses fetchEnvOk { orders := some [wcSampleOrder] }
      [wcSampleOrder] rfl rfl rfl rfl rfl rfl).1,
   ((fetchOrders_maps_known_statuses fetchEnvOk { orders := some [wcSampleOrder] }
      [wcSampleOrder] rfl rfl rfl rfl rfl rfl).2 wcSampleOrder).2.2.1 rfl⟩

/-- Claim C10: a fetched remote order whose status string is not a key of
the mapping table is assigned the local status Pending as a silent default,
and `fetchOrders` still succeeds on such data (it never fails on an unknown
remote status). -/
theorem mapWooCommerceOrder_unknown_status_defaults_to_pending
    (wc : WCOrder) (h : wcStatusMap wc.status = none) :
    (mapWooCommerceOrder wc).status = OrderStatus.Pending ∧
    ∀ (env : FetchEnv) (b : JsonBody) (data : List WCOrder),
      checkMixedContent env.httpsApp (stripTrailingSlashes env.siteUrl) = none →
      env.fetchError = none →
      ctIncludesJson env.contentType = true →
      env.ok = true →
      env.bodyJson = some b →
      b.orders = some data →
      wc ∈ data →
      fetchOrdersWC env = .ok (data.map mapWooCommerceOrder) := by
  refine ⟨?_, fun env b data hmix hferr hct hok hbody hords _ =>
    fetchOrdersWC_ok env b data hmix hferr hct hok hbody hords⟩
  rw [mapWooCommerceOrder_status, h]
  decide

/-- Sample raw WooCommerce order with an unknown remote status ("trash"). -/
def wcTrashOrder : WCOrder := { wcSampleOrder with id := 102, status := "trash" }

/-- Sample fetch environment carrying the unknown-status order. -/
def fetchEnvTrash : FetchEnv :=
  { fetchEnvOk with bodyJson := some { orders := some [wcTrashOrder] } }

/-- Claim C7: `fetchOrders` classifies failures into distinct categories
with distinct user-facing messages: 401/403 yield the authentication
message, 404 the endpoint-not-found message, a non-JSON HTML body the
malformed-response error (never a parsed order list), and any other non-OK
status passes through the remote body's message when it supplies one. -/
theorem fetchOrders_failure_classification
    (env : FetchEnv)
    (hmix : checkMixedContent env.httpsApp (stripTrailingSlashes env.siteUrl) = none)
    (hferr : env.fetchError = none) :
    (ctIncludesJson env.contentType = true → env.ok = false →
      (env.status = 401 ∨ env.status = 403) →
      fetchOrdersWC env = .error (authFailedMsg env.status)) ∧
    (ctIncludesJson env.contentType = true → env.ok = false → env.status = 404 →
      fetchOrdersWC env = .error endpointNotFoundMsg) ∧
    (ctIncludesJson env.contentType = false →
      strContains env.bodyText "<!DOCTYPE html>" = true →
      fetchOrdersWC env = .error (htmlResponseMsg env.status) ∧
      ∀ l : List Order, fetchOrdersWC env ≠ .ok l) ∧
    (∀ b : JsonBody, ctIncludesJson env.contentType = true → env.ok = false →
      env.status ≠ 401 → env.status ≠ 403 → env.status ≠ 404 →
      env.bodyJson = some b → b.message ≠ "" →
      fetchOrdersWC env = .error b.message) ∧
    (authFailedMsg 401 ≠ endpointNotFoundMsg ∧
     authFailedMsg 403 ≠ endpointNotFoundMsg ∧
     authFailedMsg 401 ≠ htmlResponseMsg 401 ∧
     endpointNotFoundMsg ≠ htmlResponseMsg 404) := by
  refine ⟨?_, ?_, ?_, ?_, by decide, by decide, by decide, by decide⟩
  · intro hct hok hst
    rcases hst with h | h <;> simp [fetchOrdersWC, hmix, hferr, hct, hok, h]
  · intro hct hok h
    simp [fetchOrdersWC, hmix, hferr, hct, hok, h]
  · intro hct hhtml
    constructor
    · simp [fetchOrdersWC, hmix, hferr, hct, hhtml]
    · intro l
      simp [fetchOrdersWC, hmix, hferr, hct, hhtml]
  · intro b hct hok h401 h403 h404 hbody hmsg
    have e401 : (env.status == 401) = false := beq_eq_false_iff_ne.mpr h401
    have e403 : (env.status == 403) = false := beq_eq_false_iff_ne.mpr h403
    have e404 : (env.status == 404) = false := beq_eq_false_iff_ne.mpr h404
    simp [fetchOrdersWC, hmix, hferr, hct, hok, hbody, e401, e403, e404, jsOr, hmsg]

/-- Fetch environment: 401 with a JSON error body. -/
def fetchEnv401 : FetchEnv :=
  { httpsApp := true, siteUrl := "https://shop.example.com",
    contentType := some "application/json", ok := false, status := 401,
    bodyJson := some { message := "Sorry, you cannot list resources." } }

/-- Fetch environment: an HTML login page with content-type text/html. -/
def fetchEnvHtml : FetchEnv :=
  { httpsApp := true, siteUrl := "https://shop.example.com",
    contentType := some "text/html", ok := true, status := 200,
    bodyText := "<!DOCTYPE html><html><body>Log in</body></html>" }

/-- Fetch environment: HTTP 500 whose JSON body carries a message. -/
def fetchEnv500 : FetchEnv :=
  { httpsApp := true, siteUrl := "https://shop.example.com",
    contentType := some "application/json", ok := false, status := 500,
    bodyJson := some { message := "Internal server error." } }

/-- Witness for C7 at concrete environments: a 401 yields the authentication
message, an HTML login page yields the malformed-response error (and no
order list), and a 500 passes the body's message through. -/
theorem fetchOrders_failure_classification_witness :
    fetchOrdersWC fetchEnv401 = .error (authFailedMsg 401) ∧
    fetchOrdersWC fetchEnvHtml = .error (htmlResponseMsg 200) ∧
    (∀ l : List Order, fetchOrdersWC fetchEnvHtml ≠ .ok l) ∧
    fetchOrdersWC fetchEnv500 = .error "Internal server error." :=
  ⟨(fetchOrders_failure_classification fetchEnv401 rfl rfl).1 rfl rfl (Or.inl rfl),
   ((fetchOrders_failure_classification fetchEnvHtml rfl rfl).2.2.1 rfl rfl).1,
   ((fetchOrders_failure_classification fetchEnvHtml rfl rfl).2.2.1 rfl rfl).2,
   (fetchOrders_failure_classification fetchEnv500 rfl rfl).2.2.2.1
     { message := "Internal server error." } rfl rfl
     (by decide) (by decide) (by decide) rfl (by decide)⟩

/-- Sample local order used by concrete instances. -/
def sampleOrder : Order :=
  { id := "7", customerName := "Jane Doe", customerEmail := "jane@example.com",
    customerPhone := "01712345678", orderDate := "2023-10-26",
    status := OrderStatus.Pending, items := [], total := "115.98",
    shippingAddress := "12 Lake Road, Dhaka" }

/-- Update environment on the success path (HTTP-served app, so no mixed
content). -/
def updateEnvOk : UpdateEnv := { bodyOrder := sampleOrder }

/-- Claim C2 (evidence): for every status with a reverse mapping both
revisions of `updateOrderStatus` send exactly the mapped remote value; on a
status with no mapping the custom-endpoint revision fails fast with the
unmapped-status error and no network request, but the WC-API revision still
issues the request, with the `status` field omitted from the body — the
fail-fast half of the claim does not hold of the WC-API revision. -/
theorem updateOrderStatus_mapping_and_fail_fast :
    (∀ (orderId status wcStatus : String) (env : UpdateEnv),
      statusMapLocalToWc status = some wcStatus →
      (updateOrderStatusV1 orderId status env).requests =
        [{ orderId := orderId, statusField := some wcStatus }] ∧
      (checkMixedContent env.httpsApp env.siteUrl = none →
        (updateOrderStatusWC orderId status env).requests =
          [{ orderId := orderId, statusField := some wcStatus }])) ∧
    (∀ (orderId status : String) (env : UpdateEnv),
      statusMapLocalToWc status = none →
      updateOrderStatusV1 orderId status env =
        { requests := [], result := .error (unknownStatusMsg status) }) ∧
    (∀ (orderId status : String) (env : UpdateEnv),
      statusMapLocalToWc status = none →
      checkMixedContent env.httpsApp env.siteUrl = none →
      (updateOrderStatusWC orderId status env).requests =
        [{ orderId := orderId, statusField := none }]) := by
  refine ⟨?_, ?_, ?_⟩
  · intro orderId status wcStatus env h
    obtain ⟨ha, hs, hf, ho, hst, hj, hm, hbo, hbw⟩ := env
    constructor
    · cases hf <;> cases ho <;> cases hj <;> simp [updateOrderStatusV1, h]
    · intro hmix
      cases hf <;> cases ho <;> cases hj <;>
        simp [updateOrderStatusWC, h, hmix] at hmix ⊢
  · intro orderId status env h
    simp [updateOrderStatusV1, h]
  · intro orderId status env h hmix
    obtain ⟨ha, hs, hf, ho, hst, hj, hm, hbo, hbw⟩ := env
    cases hf <;> cases ho <;> cases hj <;>
      simp [updateOrderStatusWC, h, hmix] at hmix ⊢

/-- Witness for C2 at concrete inputs: "Shipped" is sent as "completed" by
both revisions, the custom-endpoint revision rejects the unmapped status
"Refunded" without a request, and the WC-API revision sends a request with
the status field omitted for the same input. -/
theorem updateOrderStatus_mapping_and_fail_fast_witness :
    (updateOrderStatusV1 "7" "Shipped" updateEnvOk).requests =
      [{ orderId := "7", statusField := some "completed" }] ∧
    (updateOrderStatusWC "7" "Shipped" updateEnvOk).requests =
      [{ orderId := "7", statusField := some "completed" }] ∧
    updateOrderStatusV1 "7" "Refunded" updateEnvOk =
      { requests := [], result := .error (unknownStatusMsg "Refunded") } ∧
    (updateOrderStatusWC "7" "Refunded" updateEnvOk).requests =
      [{ orderId := "7", statusField := none }] :=
  ⟨(updateOrderStatus_mapping_and_fail_fast.1 "7" "Shipped" "completed" updateEnvOk rfl).1,
   (updateOrderStatus_mapping_and_fail_fast.1 "7" "Shipped" "completed" updateEnvOk rfl).2 rfl,
   updateOrderStatus_mapping_and_fail_fast.2.1 "7" "Refunded" updateEnvOk rfl,
   updateOrderStatus_mapping_and_fail_fast.2.2 "7" "Refunded" updateEnvOk rfl rfl⟩

/-- Every run of `sendToSteadfast` resolves to a tagged result (the `catch`
converts any thrown error). -/
theorem sendToSteadfast_ok (o : Order) (env : CourierEnv) :
    ∃ r : CourierResult, sendToSteadfast o env = .ok r := by
  unfold sendToSteadfast
  cases steadfastAttempt o env with
  | ok r => exact ⟨r, rfl⟩
  | error e =>
    obtain ⟨syn, msg⟩ := e
    cases syn <;> exact ⟨_, rfl⟩

/-- Every run of `sendToPathao` resolves to a tagged result. -/
theorem sendToPathao_ok (o : Order) (env : CourierEnv) :
    ∃ r : CourierResult, sendToPathao o env = .ok r := by
  unfold sendToPathao
  cases pathaoAttempt o env with
  | ok r => exact ⟨r, rfl⟩
  | error e =>
    obtain ⟨syn, msg⟩ := e
    cases syn <;> exact ⟨_, rfl⟩

/-- Claim C4: for every order, courier and configuration, `sendToCourier`
resolves to a tagged result — it never throws across its boundary — and any
exception raised inside a gateway `try` block is caught and converted into a
`success := false` result. -/
theorem sendToCourier_never_throws
    (order : Order) (courier : Courier) (config : CourierConfig) (env : CourierEnv) :
    (∃ r : CourierResult, (sendToCourier order courier config env).result = .ok r) ∧
    (∀ e : JsErr, steadfastAttempt order env = .error e →
      ∃ r : CourierResult, sendToSteadfast order env = .ok r ∧ r.success = false) ∧
    (∀ e : JsErr, pathaoAttempt order env = .error e →
      ∃ r : CourierResult, sendToPathao order env = .ok r ∧ r.success = false) := by
  refine ⟨?_, ?_, ?_⟩
  · cases courier with
    | Steadfast =>
      unfold sendToCourier
      by_cases hg : (!truthy config.apiKey || !truthy config.secretKey) = true
      · rw [if_pos hg]
        exact ⟨_, rfl⟩
      · rw [if_neg hg]
        exact sendToSteadfast_ok order env
    | Pathao =>
      unfold sendToCourier
      by_cases hg : (!truthy config.apiKey || !truthy config.storeId) = true
      · rw [if_pos hg]
        exact ⟨_, rfl⟩
      · rw [if_neg hg]
        exact sendToPathao_ok order env
  · intro e hA
    obtain ⟨syn, msg⟩ := e
    unfold sendToSteadfast
    rw [hA]
    cases syn <;> exact ⟨_, rfl, rfl⟩
  · intro e hA
    obtain ⟨syn, msg⟩ := e
    unfold sendToPathao
    rw [hA]
    cases syn <;> exact ⟨_, rfl, rfl⟩

/-- Courier environment in which `fetch` itself rejects. -/
def courierEnvDown : CourierEnv := { fetchError := some "ECONNREFUSED" }

/-- Steadfast credential material for the concrete instances. -/
def steadfastConfig : CourierConfig :=
  { apiKey := some "sf-key", secretKey := some "sf-secret" }

/-- Witness for C4 at a concrete failing environment: the network exception
is converted into a `success := false` result, nothing is thrown. -/
theorem sendToCourier_never_throws_witness :
    (∃ r : CourierResult,
      (sendToCourier sampleOrder Courier.Steadfast steadfastConfig courierEnvDown).result = .ok r) ∧
    (∃ r : CourierResult,
      sendToSteadfast sampleOrder courierEnvDown = .ok r ∧ r.success = false) :=
  ⟨(sendToCourier_never_throws sampleOrder Courier.Steadfast steadfastConfig courierEnvDown).1,
   (sendToCourier_never_throws sampleOrder Courier.Steadfast steadfastConfig courierEnvDown).2.1
     { isSyntaxError := false, message := "ECONNREFUSED" } rfl⟩

/-- Claim C6: `sendToCourier` for Steadfast with missing key material issues
no network call (`netCalls = 0`) and returns `success := false` with the
message naming the required fields; Pathao behaves analogously for a missing
access token or store id. -/
theorem sendToCourier_missing_credentials_no_network
    (order : Order) (env : CourierEnv) :
    (∀ config : CourierConfig,
      truthy config.apiKey = false ∨ truthy config.secretKey = false →
      sendToCourier order Courier.Steadfast config env =
        { netCalls := 0,
          result := .ok { success := false, trackingId := ""
                          message := "Steadfast API Key and Secret Key are required." } }) ∧
    (∀ config : CourierConfig,
      truthy config.apiKey = false ∨ truthy config.storeId = false →
      sendToCourier order Courier.Pathao config env =
        { netCalls := 0,
          result := .ok { success := false, trackingId := ""
                          message := "Pathao Access Token and Store ID are required." } }) := by
  constructor
  · intro config h
    rcases h with h | h <;> simp [sendToCourier, h]
  · intro config h
    rcases h with h | h <;> simp [sendToCourier, h]

/-- Witness for C6: an api key with no secret key (Steadfast) and an access
token with no store id (Pathao), both with zero network calls. -/
theorem sendToCourier_missing_credentials_no_network_witness :
    sendToCourier sampleOrder Courier.Steadfast { apiKey := some "sf-key" } courierEnvDown =
      { netCalls := 0,
        result := .ok { success := false, trackingId := ""
                        message := "Steadfast API Key and Secret Key are required." } } ∧
    sendToCourier sampleOrder Courier.Pathao { apiKey := some "pt-token" } courierEnvDown =
      { netCalls := 0,
        result := .ok { success := false, trackingId := ""
                        message := "Pathao Access Token and Store ID are required." } } :=
  ⟨(sendToCourier_missing_credentials_no_network sampleOrder courierEnvDown).1
     { apiKey := some "sf-key" } (Or.inr rfl),
   (sendToCourier_missing_credentials_no_network sampleOrder courierEnvDown).2
     { apiKey := some "pt-token" } (Or.inr rfl)⟩

/-- Claim C8: on a successful booking the returned trackingId is the remote
response's tracking identifier whenever the response carries a non-empty
one; only when it carries none (absent, or empty and hence falsy) is the
trackingId the deterministic courier-prefixed fallback derived from the
order id. -/
theorem booking_tracking_id_preference
    (order : Order) (env : CourierEnv)
    (hferr : env.fetchError = none)
    (hct : ctIncludesJson env.contentType = true)
    (hjson : env.jsonParses = true)
    (hok : env.ok = true) :
    (∀ t : String, env.trackingCode = some t → t ≠ "" →
      sendToSteadfast order env =
        .ok { success := true, trackingId := t,
              message := "Successfully booked with Steadfast. Tracking: " ++ t } ∧
      sendToPathao order env =
        .ok { success := true, trackingId := t,
              message := "Successfully booked with Pathao. Tracking: " ++ t }) ∧
    ((env.trackingCode = none ∨ env.trackingCode = some "") →
      sendToSteadfast order env =
        .ok { success := true, trackingId := "STDFST-" ++ order.id,
              message := "Successfully booked with Steadfast. Tracking: " ++
                ("STDFST-" ++ order.id) } ∧
      sendToPathao order env =
        .ok { success := true, trackingId := "PTHO-" ++ order.id,
              message := "Successfully booked with Pathao. Tracking: " ++
                ("PTHO-" ++ order.id) }) := by
  constructor
  · intro t ht hne
    constructor
    · simp [sendToSteadfast, steadfastAttempt, hferr, hct, hjson, hok, ht, jsOr, hne]
    · simp [sendToPathao, pathaoAttempt, hferr, hct, hjson, hok, ht, jsOr, hne]
  · intro h
    rcases h with h | h <;>
      exact ⟨by simp [sendToSteadfast, steadfastAttempt, hferr, hct, hjson, hok, h, jsOr],
             by simp [sendToPathao, pathaoAttempt, hferr, hct, hjson, hok, h, jsOr]⟩

/-- Courier environment: successful JSON response carrying a tracking id. -/
def courierEnvTrk : CourierEnv :=
  { contentType := some "application/json", ok := true, status := 200,
    jsonParses := true, trackingCode := some "TRK123" }

/-- Courier environment: successful JSON response with no tracking id. -/
def courierEnvNoTrk : CourierEnv :=
  { contentType := some "application/json", ok := true, status := 200,
    jsonParses := true, trackingCode := none }

/-- Witness for C8: with a remote tracking id "TRK123" it is returned; with
none, the prefixed fallback from order id "7" is. -/
theorem booking_tracking_id_preference_witness :
    sendToSteadfast sampleOrder courierEnvTrk =
      .ok { success := true, trackingId := "TRK123",
            message := "Successfully booked with Steadfast. Tracking: " ++ "TRK123" } ∧
    sendToPathao sampleOrder courierEnvNoTrk =
      .ok { success := true, trackingId := "PTHO-" ++ "7",
            message := "Successfully booked with Pathao. Tracking: " ++ ("PTHO-" ++ "7") } :=
  ⟨((booking_tracking_id_preference sampleOrder courierEnvTrk rfl rfl rfl rfl).1
      "TRK123" rfl (by decide)).1,
   ((booking_tracking_id_preference sampleOrder courierEnvNoTrk rfl rfl rfl rfl).2
      (Or.inl rfl)).2⟩

/-- Claim C1: when the remote update call fails, `handleUpdateStatus` ends
with the order list equal to the fresh `fetchOrders` result (rollback by
refetch, not the optimistically-applied list), and the distinct
"Failed to update order status." error is surfaced along the way. -/
theorem update_failure_rollback_by_refetch
    (connected : Bool) (siteUrl apiKey : Option String) (s : AppState)
    (orderId : String) (status : OrderStatus) (errMsg : String)
    (freshOrders : List Order)
    (hconn : connected = true)
    (hsu : truthy siteUrl = true)
    (hak : truthy apiKey = true) :
    (handleUpdateStatus connected siteUrl apiKey s orderId status
        (.error errMsg) (.ok freshOrders)).orders = freshOrders ∧
    updateFailedMsg ∈ (handleUpdateStatus connected siteUrl apiKey s orderId status
        (.error errMsg) (.ok freshOrders)).errorLog := by
  constructor <;> simp [handleUpdateStatus, loadOrders, hconn, hsu, hak]

/-- Controller state holding the sample pending order. -/
def appSample : AppState := { orders := [sampleOrder], selectedOrder := some sampleOrder }

/-- The fresh list a rollback refetch returns in the concrete instances. -/
def freshSample : List Order := [mapWooCommerceOrder wcSampleOrder]

/-- Witness for C1: a concrete failed update ends in the fresh fetch result
with the update-failed error surfaced. -/
theorem update_failure_rollback_by_refetch_witness :
    (handleUpdateStatus true (some "https://shop.example.com") (some "app-password")
        appSample "7" OrderStatus.Shipped (.error "500") (.ok freshSample)).orders =
      freshSample ∧
    updateFailedMsg ∈ (handleUpdateStatus true (some "https://shop.example.com")
        (some "app-password") appSample "7" OrderStatus.Shipped (.error "500")
        (.ok freshSample)).errorLog :=
  update_failure_rollback_by_refetch true (some "https://shop.example.com")
    (some "app-password") appSample "7" OrderStatus.Shipped "500" freshSample
    rfl rfl rfl

/-- Claim C5: a successful booking records courier and trackingId on the
order and, when the order's status was Pending, the controller itself
advances it to Processing (no separate caller-issued status update); when
the status was not Pending, the status is left untouched. -/
theorem booking_success_auto_advances_pending
    (connected : Bool) (siteUrl apiKey : Option String) (app : AppState)
    (m : ModalCtx) (order : Order) (c : Courier) (env : CourierEnv)
    (upd : Order) (refetch : Except String (List Order)) (r : CourierResult)
    (hsend : (sendToCourier order c (modalCourierConfig m c) env).result = .ok r)
    (hsucc : r.success = true)
    (hsu : truthy siteUrl = true)
    (hak : truthy apiKey = true) :
    (order.status = OrderStatus.Pending →
      (handleSendToCourierFlow connected siteUrl apiKey app m order c env
          (.ok upd) refetch).orders =
        app.orders.map (fun o =>
          if o.id == order.id then
            { o with courier := some c, trackingId := some r.trackingId,
                     status := OrderStatus.Processing }
          else o)) ∧
    (order.status ≠ OrderStatus.Pending →
      (handleSendToCourierFlow connected siteUrl apiKey app m order c env
          (.ok upd) refetch).orders =
        app.orders.map (fun o =>
          if o.id == order.id then
            { o with courier := some c, trackingId := some r.trackingId }
          else o)) := by
  constructor
  · intro hp
    have hps : (order.status == OrderStatus.Pending) = true := by simp [hp]
    simp only [handleSendToCourierFlow]
    rw [hsend]
    simp only [hsucc, hps, if_true]
    unfold handleUpdateStatus
    simp only [hsu, hak, Bool.not_true, Bool.or_self, Bool.false_eq_true, if_false]
    unfold handleOrderBooked
    simp only [List.map_map]
    refine List.map_congr_left ?_
    intro o _
    by_cases h : (o.id == order.id) = true <;> simp [Function.comp, h]
  · intro hp
    have hps : (order.status == OrderStatus.Pending) = false := by
      simp [hp]
    simp only [handleSendToCourierFlow]
    rw [hsend]
    simp only [hsucc, hps, Bool.false_eq_true, if_false, if_true]
    rfl

/-- Modal context with full Steadfast credentials. -/
def modalSample : ModalCtx :=
  { steadfastApiKey := some "sf-key", steadfastSecretKey := some "sf-secret" }

/-- Witness for C5: booking the concrete Pending order with Steadfast in a
successful environment yields Processing plus the booking fields. -/
theorem booking_success_auto_advances_pending_witness :
    (handleSendToCourierFlow true (some "https://shop.example.com") (some "app-password")
        appSample modalSample sampleOrder Courier.Steadfast courierEnvTrk
        (.ok sampleOrder) (.ok [])).orders =
      appSample.orders.map (fun o =>
        if o.id == sampleOrder.id then
          { o with courier := some Courier.Steadfast, trackingId := some "TRK123",
                   status := OrderStatus.Processing }
        else o) :=
  (booking_success_auto_advances_pending true (some "https://shop.example.com")
      (some "app-password") appSample modalSample sampleOrder Courier.Steadfast
      courierEnvTrk sampleOrder (.ok [])
      { success := true, trackingId := "TRK123",
        message := "Successfully booked with Steadfast. Tracking: " ++ "TRK123" }
      rfl rfl rfl rfl).1 rfl

/-- Claim C9 (amended): once an order is booked the booking UI can never
fire again for it (the send action is disabled whenever `courier` is set),
a successful optimistic status update preserves every order's courier and
trackingId, and booking another order leaves it untouched.  (The unamended
claim fails: a rollback-by-refetch replaces the list with freshly mapped
remote orders carrying no courier fields — see the counterexample.) -/
theorem booked_order_courier_stability :
    (∀ (order : Order) (m : ModalCtx) (c : Courier) (st : CourierUiStatus),
      isBooked order = true → sendButtonEnabled order m c st = false) ∧
    (∀ (connected : Bool) (siteUrl apiKey : Option String) (s : AppState)
       (orderId : String) (status : OrderStatus) (upd : Order)
       (refetch : Except String (List Order)),
      (handleUpdateStatus connected siteUrl apiKey s orderId status
          (.ok upd) refetch).orders.map (fun o => (o.courier, o.trackingId)) =
        s.orders.map (fun o => (o.courier, o.trackingId))) ∧
    (∀ (s : AppState) (orderId : String) (c : Courier) (tid : String) (o : Order),
      o ∈ s.orders → o.id ≠ orderId →
      o ∈ (handleOrderBooked s orderId c tid).orders) := by
  refine ⟨?_, ?_, ?_⟩
  · intro order m c st hb
    simp [sendButtonEnabled, hb]
  · intro connected siteUrl apiKey s orderId status upd refetch
    unfold handleUpdateStatus
    by_cases hg : (!truthy siteUrl || !truthy apiKey) = true
    · rw [if_pos hg]
    · rw [if_neg hg]
      simp only [List.map_map]
      refine List.map_congr_left ?_
      intro o _
      by_cases h : (o.id == orderId) = true <;> simp [Function.comp, h]
  · intro s orderId c tid o ho hne
    unfold handleOrderBooked
    simp only [List.mem_map]
    refine ⟨o, ho, ?_⟩
    simp [hne]

/-- A booked order: the sample order after a successful Steadfast booking. -/
def bookedOrder : Order :=
  { sampleOrder with
    status := OrderStatus.Processing
    courier := some Courier.Steadfast
    trackingId := some "TRK123" }

/-- Controller state holding the booked order. -/
def appBooked : AppState := { orders := [bookedOrder] }

/-- Counterexample to C9 as stated: the booked order's courier is set, yet
the very next local-model operation — a status update whose remote call
fails, triggering the controller's own rollback-by-refetch — replaces the
list with freshly mapped remote orders, whose courier and trackingId are
absent: the booking fields are changed (erased), so courier assignment is
not preserved by every subsequent local operation. -/
theorem booked_order_courier_stability_counterexample :
    bookedOrder.courier = some Courier.Steadfast ∧
    bookedOrder.trackingId = some "TRK123" ∧
    (handleUpdateStatus true (some "https://shop.example.com") (some "app-password")
        appBooked "7" OrderStatus.Shipped (.error "500")
        (.ok [mapWooCommerceOrder { wcSampleOrder with id := 7 }])).orders =
      [mapWooCommerceOrder { wcSampleOrder with id := 7 }] ∧
    (mapWooCommerceOrder { wcSampleOrder with id := 7 }).courier = none ∧
    (mapWooCommerceOrder { wcSampleOrder with id := 7 }).trackingId = none :=
  ⟨rfl, rfl, rfl, rfl, rfl⟩

/-- Witness for C9 (amended) at concrete inputs: the Send action is disabled
for the booked order, and a successful optimistic update preserves its
courier and trackingId. -/
theorem booked_order_courier_stability_witness :
    sendButtonEnabled bookedOrder modalSample Courier.Steadfast CourierUiStatus.idle = false ∧
    (handleUpdateStatus true (some "https://shop.example.com") (some "app-password")
        appBooked "7" OrderStatus.Delivered (.ok sampleOrder)
        (.ok [])).orders.map (fun o => (o.courier, o.trackingId)) =
      appBooked.orders.map (fun o => (o.courier, o.trackingId)) ∧
    bookedOrder ∈ (handleOrderBooked appBooked "42" Courier.Pathao "T9").orders :=
  ⟨booked_order_courier_stability.1 bookedOrder modalSample Courier.Steadfast
     CourierUiStatus.idle rfl,
   booked_order_courier_stability.2.1 true (some "https://shop.example.com")
     (some "app-password") appBooked "7" OrderStatus.Delivered sampleOrder (.ok []),
   booked_order_courier_stability.2.2 appBooked "42" Courier.Pathao "T9" bookedOrder
     (List.mem_singleton.mpr rfl) (by decide)⟩

/-- Witness for C10: the "trash" order maps to Pending and the fetch still
succeeds. -/
theorem mapWooCommerceOrder_unknown_status_defaults_to_pending_witness :
    (mapWooCommerceOrder wcTrashOrder).status = OrderStatus.Pending ∧
    fetchOrdersWC fetchEnvTrash = .ok ([wcTrashOrder].map mapWooCommerceOrder) :=
  ⟨(mapWooCommerceOrder_unknown_status_defaults_to_pending wcTrashOrder rfl).1,
   (mapWooCommerceOrder_unknown_status_defaults_to_pending wcTrashOrder rfl).2
     fetchEnvTrash { orders := some [wcTrashOrder] } [wcTrashOrder]
     rfl rfl rfl rfl rfl rfl (List.mem_singleton.mpr rfl)⟩

end OrderManager
